import Mathlib

set_option linter.unusedVariables false

/-!
Shallow embedding of the mapbox-mcp-server protocol client
(`src/mcp-client/src/auth.py` and `src/mcp-client/src/mcp_client.py`),
with theorems checking the repository's specification against it.

Conventions of the embedding:
* JSON values decoded by `response.json()` / `json.loads` become the `Json`
  inductive; a decoded response body is a `List (String × Json)` mapping,
  matching the `dict[str, Any]` typing of `MCPClient.request`.
* The system clock is an explicit argument (`now`); `time.time()` is a rational,
  `int(time.time())` is its floor.
* Network effects are explicit inputs: the HTTP response of a `request`, the
  SSE data frames of a `stream` (together with a `parse` oracle standing for
  `json.loads`).
* `ClientState` carries the client's only mutable state (the cached token and
  its issuance timestamp) plus an `issueCount` history variable counting calls
  to `generate_token`, and the closed flag of the underlying httpx client.
-/

namespace MCP

/-- JSON values, as produced by `json.loads` / `response.json()`. -/
inductive Json where
  | null
  | bool (b : Bool)
  | num (n : Int)
  | str (s : String)
  | arr (elems : List Json)
  | obj (fields : List (String × Json))

/-- Key lookup on a JSON value: first matching key of an object, `none` otherwise. -/
def Json.lookup : Json → String → Option Json
  | .obj fields, key => List.lookup key fields
  | _, _ => none

/-- Error taxonomy of the client, as realised by the Python code:
`configurationError` is the `ValueError` raised for missing settings;
`transportError` is `httpx.HTTPStatusError` from `raise_for_status`;
`remoteError` is the `ValueError` raised for a JSON-RPC error body, carrying
the decoded error descriptor; `attributeError` is the Python `AttributeError`
raised when `error.get(...)` is called on a non-mapping descriptor;
`clientClosed` is the failure of using the underlying httpx client after
`close()` (the spec's `ClientClosedError`). -/
inductive MCPError where
  | configurationError (msg : String)
  | transportError (status : Nat)
  | remoteError (descriptor : Json)
  | attributeError
  | clientClosed

/-- Python truthiness of an optional string: `None` and `""` are falsy. -/
def strTruthy : Option String → Bool
  | none => false
  | some s => s != ""

/-- Claims payload of a generated JWT (`auth.py`, `generate_token`). -/
structure JWTPayload where
  iss : String
  sub : String
  aud : String
  iat : Int
  nbf : Int
  exp : Int
  permissions : List String
deriving DecidableEq

/-- Configuration held by `JWTAuth` (`auth.py`, `__init__` fields), with the
Python default issuer/audience/subject values. -/
structure JWTAuth where
  jwt_secret : Option String
  issuer : String := "mapbox-mcp-server"
  audience : String := "mapbox-mcp-server"
  subject : String := "pydantic-ai-client"
deriving DecidableEq

/-- Python default of the `permissions` parameter of `generate_token`. -/
def defaultPermissions : List String := ["mapbox:*"]

/-- Python default of the `expires_in` parameter of `generate_token` (seconds). -/
def defaultExpiresIn : Int := 3600

/-- The claims dictionary built by `JWTAuth.generate_token` (`auth.py` lines
58-72): permissions default to `defaultPermissions`, `iat` and `nbf` are the
current (integer) time, `exp` is `now + expires_in`. -/
def tokenPayload (auth : JWTAuth) (permissions : Option (List String))
    (expires_in : Int) (now : Int) : JWTPayload :=
  { iss := auth.issuer
    sub := auth.subject
    aud := auth.audience
    iat := now
    nbf := now
    exp := now + expires_in
    permissions := permissions.getD defaultPermissions }

/-- `JWTAuth.generate_token` (`auth.py` lines 44-84): fails with the
missing-secret `ValueError` when the secret is absent or empty, otherwise
returns the claims payload. The HS256 signing step performed by the external
`jwt` library is not modelled; all claims here concern the claims payload. -/
def generate_token (auth : JWTAuth) (permissions : Option (List String))
    (expires_in : Int) (now : Int) : Except MCPError JWTPayload :=
  if strTruthy auth.jwt_secret then
    .ok (tokenPayload auth permissions expires_in now)
  else
    .error (.configurationError "JWT secret is required")

/-- Python `str.rstrip` with argument a single slash: strips every trailing slash. -/
def rstripSlash (s : String) : String :=
  ⟨(s.data.reverse.dropWhile (fun c => c = '/')).reverse⟩

/-- Python `str.endswith`. -/
def strEndsWith (s sfx : String) : Bool :=
  sfx.data.reverse.isPrefixOf s.data.reverse

/-- Server-URL normalization in `MCPClient.__init__` (`mcp_client.py` lines
44-46): if the URL does not already end with `/mcp`, strip trailing slashes
and append `/mcp`. -/
def normalizeServerUrl (url : String) : String :=
  if strEndsWith url "/mcp" then url
  else rstripSlash url ++ "/mcp"

/-- Mutable state of an `MCPClient`: the cached token and its issuance
timestamp (`_current_token`, `_token_generated_at`), an `issueCount` history
variable counting `generate_token` calls, and the closed flag of the
underlying httpx client (set by `close()`; the spec reads it as the
connection having been released). -/
structure ClientState where
  currentToken : Option JWTPayload
  tokenGeneratedAt : ℚ
  issueCount : Nat
  closed : Bool
deriving DecidableEq

/-- `_token_ttl` (`mcp_client.py` line 55): refresh 5 minutes before the
1-hour expiry. -/
def tokenTTL : ℚ := 3300

/-- Regeneration branch of `_get_fresh_token`: issue a new token (the payload
`generate_token` builds at integer time `⌊now⌋`), cache it, record the
issuance timestamp, and bump the issuance counter. -/
def refreshToken (auth : JWTAuth) (st : ClientState) (now : ℚ) :
    JWTPayload × ClientState :=
  let fresh := tokenPayload auth none defaultExpiresIn ⌊now⌋
  (fresh,
   { st with
      currentToken := some fresh
      tokenGeneratedAt := now
      issueCount := st.issueCount + 1 })

/-- `MCPClient._get_fresh_token` (`mcp_client.py` lines 84-97): reuse the
cached token unless none is cached or its age exceeds `tokenTTL`. -/
def getFreshToken (auth : JWTAuth) (st : ClientState) (now : ℚ) :
    JWTPayload × ClientState :=
  match st.currentToken with
  | none => refreshToken auth st now
  | some t =>
      if now - st.tokenGeneratedAt > tokenTTL then refreshToken auth st now
      else (t, st)

/-- An HTTP response as seen by `request`: status code and decoded JSON body. -/
structure HTTPResponse where
  status : Nat
  body : List (String × Json)

/-- `httpx` `raise_for_status` succeeds exactly on 2xx responses. -/
def is2xx (status : Nat) : Bool :=
  decide (200 ≤ status) && decide (status < 300)

/-- JSON-RPC error detection in `MCPClient.request` (`mcp_client.py` lines
154-164): the error branch is taken on presence of the `error` key alone.
A mapping descriptor survives the `error.get(...)` logging calls and is
raised as the `ValueError` (`remoteError`) carrying the descriptor; any
non-mapping descriptor makes `error.get` itself raise `AttributeError`.
Without an `error` key the decoded body is returned verbatim. -/
def jsonRPCCheck (body : List (String × Json)) :
    Except MCPError (List (String × Json)) :=
  match List.lookup "error" body with
  | some (Json.obj d) => .error (.remoteError (Json.obj d))
  | some _ => .error .attributeError
  | none => .ok body

/-- JSON-RPC request body built by `MCPClient.request` (`mcp_client.py` lines
123-130): `jsonrpc`, `method`, `id`, and `params` only when given. -/
def requestData (method rid : String) (params : Option Json) :
    List (String × Json) :=
  [("jsonrpc", Json.str "2.0"), ("method", Json.str method),
   ("id", Json.str rid)] ++
    (match params with
     | some p => [("params", p)]
     | none => [])

/-- JSON body built by `MCPClient.stream` (`mcp_client.py` lines 190-194):
`jsonrpc`, `method`, and `params` defaulting to the empty object — no `id`. -/
def streamRequestData (method : String) (params : Option Json) :
    List (String × Json) :=
  [("jsonrpc", Json.str "2.0"), ("method", Json.str method),
   ("params", params.getD (Json.obj []))]

/-- `MCPClient.request` (`mcp_client.py` lines 99-173) with transport effects
explicit. The token refresh runs first (line 133); posting on a closed httpx
client fails (the spec's `ClientClosedError`); a non-2xx status fails at
`raise_for_status` (line 150) carrying the status; otherwise the decoded body
goes through the JSON-RPC error check. -/
def request (auth : JWTAuth) (st : ClientState) (now : ℚ) (method rid : String)
    (params : Option Json) (resp : HTTPResponse) :
    Except MCPError (List (String × Json)) × ClientState :=
  let ts := getFreshToken auth st now
  if st.closed then (.error .clientClosed, ts.2)
  else if is2xx resp.status then (jsonRPCCheck resp.body, ts.2)
  else (.error (.transportError resp.status), ts.2)

/-- SSE event processing in `MCPClient.stream` (`mcp_client.py` lines
216-232): each frame's data field, in arrival order; empty data is skipped by
the `if sse.data` guard, non-empty data is parsed by `json.loads` (the `parse`
oracle) and yielded on success; a parse failure is logged and the frame
skipped. -/
def streamEvents (parse : String → Option Json) (frames : List String) :
    List Json :=
  frames.filterMap (fun d => if d = "" then none else parse d)

/-- `MCPClient.stream` (`mcp_client.py` lines 175-232) with transport effects
explicit: token refresh first, failure on a closed client, otherwise the
processed frame sequence (the sequence ends normally when the server closes
the connection, i.e. when `frames` is exhausted). -/
def stream (auth : JWTAuth) (st : ClientState) (now : ℚ) (method : String)
    (params : Option Json) (parse : String → Option Json)
    (frames : List String) :
    Except MCPError (List Json) × ClientState :=
  let ts := getFreshToken auth st now
  if st.closed then (.error .clientClosed, ts.2)
  else (.ok (streamEvents parse frames), ts.2)

/-- Result unwrapping in `MCPClient.call_tool` (`mcp_client.py` lines
263-266): return the value under the `result` key when present, the payload
unchanged otherwise. -/
def callToolUnwrap (payload : List (String × Json)) : Json :=
  match List.lookup "result" payload with
  | some v => v
  | none => Json.obj payload

/-- `MCPClient.call_tool` (`mcp_client.py` lines 234-266): a `request` with
method `tools/call` and the name/arguments params, then one level of result
unwrapping on success. -/
def call_tool (auth : JWTAuth) (st : ClientState) (now : ℚ) (name : String)
    (arguments : Json) (rid : String) (resp : HTTPResponse) :
    Except MCPError Json × ClientState :=
  let r := request auth st now "tools/call" rid
      (some (Json.obj [("name", Json.str name), ("arguments", arguments)]))
      resp
  (r.1.map callToolUnwrap, r.2)

/-- `MCPClient.close` (`mcp_client.py` lines 80-82): `aclose` the underlying
httpx client. The httpx library is outside `src/`; per its documented
contract (and the spec) this releases the connection and makes later sends
fail, modelled by the `closed` flag. -/
def close (st : ClientState) : ClientState :=
  { st with closed := true }

end MCP

namespace MCP

/-- Sample configuration used by concrete witnesses. -/
def sampleAuth : JWTAuth := { jwt_secret := some "test-secret" }

/-- C3 (counterexample): requesting no permissions yields the default scope
list containing the string `mapbox:*`, not the claimed singleton `*` scope. -/
theorem default_scope_counterexample :
    generate_token { jwt_secret := some "test-secret" } none 3600 0
      = .ok (tokenPayload { jwt_secret := some "test-secret" } none 3600 0) ∧
    (tokenPayload { jwt_secret := some "test-secret" } none 3600 0).permissions
      = ["mapbox:*"] ∧
    (["mapbox:*"] : List String) ≠ ["*"] :=
  ⟨rfl, rfl, by decide⟩

/-- C3 (amended): with a signing secret configured, `generate_token` succeeds
and produces a payload whose `iat` and `nbf` both equal the current time,
whose `exp` equals current time plus the validity (so `exp - iat` is the
validity), whose permissions equal the requested list — defaulting to
`["mapbox:*"]` (not `["*"]`) when none is requested — and whose default
validity is 3600 seconds. -/
theorem generate_token_claims (auth : JWTAuth) (perms : Option (List String))
    (validity now : Int) (hsecret : strTruthy auth.jwt_secret = true) :
    generate_token auth perms validity now
      = .ok (tokenPayload auth perms validity now) ∧
    (tokenPayload auth perms validity now).iat = now ∧
    (tokenPayload auth perms validity now).nbf = now ∧
    (tokenPayload auth perms validity now).exp = now + validity ∧
    (tokenPayload auth perms validity now).exp
        - (tokenPayload auth perms validity now).iat = validity ∧
    (∀ ps, perms = some ps →
        (tokenPayload auth perms validity now).permissions = ps) ∧
    (perms = none →
        (tokenPayload auth perms validity now).permissions = ["mapbox:*"]) ∧
    defaultExpiresIn = 3600 := by
  refine ⟨by simp [generate_token, hsecret], rfl, rfl, rfl,
    by simp [tokenPayload], ?_, ?_, rfl⟩
  · rintro ps rfl
    rfl
  · rintro rfl
    rfl

/-- Witness for `generate_token_claims` at a concrete configuration. -/
theorem generate_token_claims_witness :
    generate_token sampleAuth (some ["mapbox:geocode"]) 60 1000
      = .ok (tokenPayload sampleAuth (some ["mapbox:geocode"]) 60 1000) ∧
    (tokenPayload sampleAuth (some ["mapbox:geocode"]) 60 1000).exp
        - (tokenPayload sampleAuth (some ["mapbox:geocode"]) 60 1000).iat
      = 60 :=
  ⟨(generate_token_claims sampleAuth (some ["mapbox:geocode"]) 60 1000 rfl).1,
   (generate_token_claims sampleAuth (some ["mapbox:geocode"]) 60 1000
      rfl).2.2.2.2.1⟩

/-- C4 (counterexample): a base address already carrying the suffix plus a
trailing slash does not normalize to the bare suffix form — the code appends
a second `/mcp` segment, because the `endswith` test runs before the slash is
stripped. -/
theorem normalize_url_counterexample :
    normalizeServerUrl "http://host/mcp/" = "http://host/mcp/mcp" ∧
    ("http://host/mcp/mcp" : String) ≠ "http://host/mcp" :=
  ⟨by decide, by decide⟩

/-- Boolean-prefix helper: a list is a prefix of itself followed by anything. -/
theorem isPrefixOf_append_self (p rest : List Char) :
    p.isPrefixOf (p ++ rest) = true := by
  induction p with
  | nil => simp [List.isPrefixOf]
  | cons a as ih => simp [List.isPrefixOf, ih]

/-- C4 (amended): `"http://host"` normalizes to `"http://host/mcp"`; an
address that does not already end with `/mcp` has ALL trailing slashes
trimmed and the suffix appended — so `"http://host/mcp/"` normalizes to
`"http://host/mcp/mcp"`, not `"http://host/mcp"` — and the normalized
address always ends with `/mcp`. -/
theorem normalize_url_claims (url : String) :
    normalizeServerUrl "http://host" = "http://host/mcp" ∧
    normalizeServerUrl "http://host/mcp/" = "http://host/mcp/mcp" ∧
    (strEndsWith url "/mcp" = false →
        normalizeServerUrl url = rstripSlash url ++ "/mcp") ∧
    rstripSlash (url ++ "/") = rstripSlash url ∧
    strEndsWith (normalizeServerUrl url) "/mcp" = true := by
  refine ⟨by decide, by decide, ?_, ?_, ?_⟩
  · intro h
    simp [normalizeServerUrl, h]
  · have hdata : (url ++ "/").data = url.data ++ ['/'] := by
      rw [String.data_append]
    simp [rstripSlash, hdata, List.dropWhile]
  · by_cases h : strEndsWith url "/mcp"
    · simp [normalizeServerUrl, h]
    · rw [normalizeServerUrl, if_neg (by simpa using h)]
      rw [strEndsWith, String.data_append, List.reverse_append]
      exact isPrefixOf_append_self _ _

/-- Witness for `normalize_url_claims` at an address with two trailing
slashes. -/
theorem normalize_url_claims_witness :
    normalizeServerUrl "http://host//" = rstripSlash "http://host//" ++ "/mcp" ∧
    strEndsWith (normalizeServerUrl "http://host//") "/mcp" = true :=
  ⟨(normalize_url_claims "http://host//").2.2.1 (by decide),
   (normalize_url_claims "http://host//").2.2.2.2⟩

end MCP

namespace MCP

/-- C1: the refresh threshold equals validity minus 300 seconds (3300s for
the 3600s default credential); a call finding a cached credential younger
than or at the threshold reuses it identically (state, hence issuance
timestamp, unchanged); a call finding no cached credential or one past the
threshold performs exactly one new issuance (counter up by one, timestamp set
to now, fresh token cached) before proceeding; consequently the credential a
call proceeds with is never older than the threshold; and both `request` and
`stream` run exactly this policy before their outbound call. -/
theorem credential_refresh_policy (auth : JWTAuth) (st : ClientState)
    (now : ℚ) :
    tokenTTL = 3600 - 300 ∧
    (∀ t, st.currentToken = some t → now - st.tokenGeneratedAt ≤ tokenTTL →
        getFreshToken auth st now = (t, st)) ∧
    ((st.currentToken = none ∨ now - st.tokenGeneratedAt > tokenTTL) →
        (getFreshToken auth st now).2.issueCount = st.issueCount + 1 ∧
        (getFreshToken auth st now).2.tokenGeneratedAt = now ∧
        (getFreshToken auth st now).2.currentToken
          = some (getFreshToken auth st now).1 ∧
        (getFreshToken auth st now).1
          = tokenPayload auth none defaultExpiresIn ⌊now⌋) ∧
    now - (getFreshToken auth st now).2.tokenGeneratedAt ≤ tokenTTL ∧
    (∀ method rid params resp,
        (request auth st now method rid params resp).2
          = (getFreshToken auth st now).2) ∧
    (∀ method params parse frames,
        (stream auth st now method params parse frames).2
          = (getFreshToken auth st now).2) := by
  refine ⟨by norm_num [tokenTTL], ?_, ?_, ?_, ?_, ?_⟩
  · intro t ht hle
    simp [getFreshToken, ht, not_lt.mpr hle]
  · intro h
    match hc : st.currentToken with
    | none => simp [getFreshToken, hc, refreshToken]
    | some t =>
        rcases h with h | h
        · rw [hc] at h
          cases h
        · simp [getFreshToken, hc, if_pos h, refreshToken]
  · match hc : st.currentToken with
    | none =>
        simp only [getFreshToken, hc, refreshToken, sub_self]
        norm_num [tokenTTL]
    | some t =>
        by_cases h : now - st.tokenGeneratedAt > tokenTTL
        · simp only [getFreshToken, hc, if_pos h, refreshToken, sub_self]
          norm_num [tokenTTL]
        · simp only [getFreshToken, hc, if_neg h]
          exact not_lt.mp h
  · intro method rid params resp
    rw [request]
    split
    · rfl
    · split
      · rfl
      · rfl
  · intro method params parse frames
    rw [stream]
    split
    · rfl
    · rfl

/-- Witness for `credential_refresh_policy`: a call 100 seconds after
issuance reuses the cached credential unchanged; a call with an empty cache
issues exactly one credential. -/
theorem credential_refresh_policy_witness :
    getFreshToken sampleAuth
        ⟨some (tokenPayload sampleAuth none defaultExpiresIn 0), 0, 1, false⟩
        100
      = (tokenPayload sampleAuth none defaultExpiresIn 0,
         ⟨some (tokenPayload sampleAuth none defaultExpiresIn 0), 0, 1,
          false⟩) ∧
    (getFreshToken sampleAuth ⟨none, 0, 0, false⟩ 0).2.issueCount = 0 + 1 :=
  ⟨(credential_refresh_policy sampleAuth
      ⟨some (tokenPayload sampleAuth none defaultExpiresIn 0), 0, 1, false⟩
      100).2.1 _ rfl (by norm_num [tokenTTL]),
   ((credential_refresh_policy sampleAuth ⟨none, 0, 0, false⟩ 0).2.2.1
      (Or.inl rfl)).1⟩

end MCP

namespace MCP

/-- C2: a decoded body carrying an error descriptor (a mapping under the
`error` key) makes `request` fail with the `RemoteError` carrying that
descriptor — hence its code, message and detail fields; any body without the
`error` key, whatever its shape, is returned verbatim; on a 2xx response the
call's outcome is exactly this check; the spec's example body fails carrying
code -32601. -/
theorem request_error_envelope (body : List (String × Json))
    (d : List (String × Json)) :
    (List.lookup "error" body = some (Json.obj d) →
        jsonRPCCheck body = .error (.remoteError (Json.obj d))) ∧
    (List.lookup "error" body = none → jsonRPCCheck body = .ok body) ∧
    (∀ auth st now method rid, ∀ params : Option Json,
        st.closed = false →
        (request auth st now method rid params ⟨200, body⟩).1
          = jsonRPCCheck body) ∧
    jsonRPCCheck
        [("error", Json.obj
          [("code", Json.num (-32601)),
           ("message", Json.str "Method not found")])]
      = .error (.remoteError (Json.obj
          [("code", Json.num (-32601)),
           ("message", Json.str "Method not found")])) ∧
    Json.lookup
        (Json.obj
          [("code", Json.num (-32601)),
           ("message", Json.str "Method not found")]) "code"
      = some (Json.num (-32601)) := by
  refine ⟨?_, ?_, ?_, rfl, rfl⟩
  · intro h
    simp [jsonRPCCheck, h]
  · intro h
    simp [jsonRPCCheck, h]
  · intro auth st now method rid params hcl
    simp [request, hcl, is2xx]

/-- Witness for `request_error_envelope`: the error case and the verbatim
pass-through case at concrete bodies. -/
theorem request_error_envelope_witness :
    jsonRPCCheck [("error", Json.obj [("code", Json.num (-32601))])]
      = .error (.remoteError (Json.obj [("code", Json.num (-32601))])) ∧
    jsonRPCCheck [("unrecognized", Json.null)]
      = .ok [("unrecognized", Json.null)] :=
  ⟨(request_error_envelope [("error", Json.obj [("code", Json.num (-32601))])]
      [("code", Json.num (-32601))]).1 rfl,
   (request_error_envelope [("unrecognized", Json.null)] []).2.1 rfl⟩

/-- C5: every non-empty SSE data frame parses and yields in frame order, a
malformed frame is skipped without terminating the sequence: three frames
with a malformed middle one yield exactly the two parsed events in order,
and in general a malformed frame splits away with both sides processed. -/
theorem stream_skips_malformed (parse : String → Option Json)
    (a b c : String) (ja jc : Json)
    (hpa : parse a = some ja) (hpb : parse b = none) (hpc : parse c = some jc)
    (ha : a ≠ "") (hb : b ≠ "") (hc : c ≠ "") :
    streamEvents parse [a, b, c] = [ja, jc] ∧
    (∀ pre post : List String,
        streamEvents parse (pre ++ b :: post)
          = streamEvents parse pre ++ streamEvents parse post) := by
  constructor
  · simp [streamEvents, ha, hb, hc, hpa, hpb, hpc]
  · intro pre post
    simp [streamEvents, List.filterMap_append, List.filterMap_cons, hb, hpb]

/-- Concrete `json.loads` oracle for the stream witness. -/
def sampleParse : String → Option Json
  | "g1" => some (Json.num 1)
  | "g2" => some (Json.num 2)
  | _ => none

/-- Witness for `stream_skips_malformed` on a concrete three-frame stream. -/
theorem stream_skips_malformed_witness :
    streamEvents sampleParse ["g1", "bad", "g2"] = [Json.num 1, Json.num 2] :=
  (stream_skips_malformed sampleParse "g1" "bad" "g2" (Json.num 1)
    (Json.num 2) rfl rfl rfl (by decide) (by decide) (by decide)).1

/-- C6: `call_tool` returns the value under the `result` key when present
(unwrapping exactly one level) and the payload unchanged otherwise; the
spec's example unwraps to the features object. -/
theorem call_tool_unwrap_result (payload : List (String × Json)) :
    (∀ v, List.lookup "result" payload = some v →
        callToolUnwrap payload = v) ∧
    (List.lookup "result" payload = none →
        callToolUnwrap payload = Json.obj payload) ∧
    callToolUnwrap [("result", Json.obj [("features", Json.arr [])])]
      = Json.obj [("features", Json.arr [])] := by
  refine ⟨?_, ?_, rfl⟩
  · intro v h
    simp [callToolUnwrap, h]
  · intro h
    simp [callToolUnwrap, h]

/-- Witness for `call_tool_unwrap_result`: unwrapping and pass-through at
concrete payloads. -/
theorem call_tool_unwrap_result_witness :
    callToolUnwrap [("result", Json.str "ok")] = Json.str "ok" ∧
    callToolUnwrap [("content", Json.null)]
      = Json.obj [("content", Json.null)] :=
  ⟨(call_tool_unwrap_result [("result", Json.str "ok")]).1 _ rfl,
   (call_tool_unwrap_result [("content", Json.null)]).2.1 rfl⟩

/-- C7 (counterexample): the body built for a streaming call carries no `id`
field, while the body built for a unary request does — the claimed identical
envelope shape fails. -/
theorem stream_body_has_no_id :
    List.lookup "id" (streamRequestData "tools/call" none) = none ∧
    List.lookup "id" (requestData "tools/call" "req-1" none)
      = some (Json.str "req-1") :=
  ⟨rfl, rfl⟩

end MCP

namespace MCP

/-- C7 (amended): a unary request body has the envelope shape with `jsonrpc`
2.0, the method, a string `id`, and `params` exactly when given; a streaming
body shares `jsonrpc` and `method` but always carries `params` (defaulting to
the empty object) and carries NO `id` field. -/
theorem envelope_shapes (method rid : String) (params : Option Json) :
    List.lookup "jsonrpc" (requestData method rid params)
      = some (Json.str "2.0") ∧
    List.lookup "method" (requestData method rid params)
      = some (Json.str method) ∧
    List.lookup "id" (requestData method rid params)
      = some (Json.str rid) ∧
    (∀ p, params = some p →
        List.lookup "params" (requestData method rid params) = some p) ∧
    (params = none →
        List.lookup "params" (requestData method rid params) = none) ∧
    List.lookup "jsonrpc" (streamRequestData method params)
      = some (Json.str "2.0") ∧
    List.lookup "method" (streamRequestData method params)
      = some (Json.str method) ∧
    List.lookup "params" (streamRequestData method params)
      = some (params.getD (Json.obj [])) ∧
    List.lookup "id" (streamRequestData method params) = none := by
  refine ⟨by simp [requestData, List.lookup],
    by simp [requestData, List.lookup],
    by simp [requestData, List.lookup], ?_, ?_,
    by simp [streamRequestData, List.lookup],
    by simp [streamRequestData, List.lookup],
    by simp [streamRequestData, List.lookup],
    by simp [streamRequestData, List.lookup]⟩
  · rintro p rfl
    simp [requestData, List.lookup]
  · rintro rfl
    simp [requestData, List.lookup]

/-- Witness for `envelope_shapes` at a concrete method, id and params. -/
theorem envelope_shapes_witness :
    List.lookup "params" (requestData "tools/call" "req-9" (some Json.null))
      = some Json.null ∧
    List.lookup "id" (streamRequestData "tools/call" (some Json.null))
      = none :=
  ⟨(envelope_shapes "tools/call" "req-9" (some Json.null)).2.2.2.1 _ rfl,
   (envelope_shapes "tools/call" "req-9" (some Json.null)).2.2.2.2.2.2.2.2⟩

/-- C8: a non-2xx response makes `request` fail with the transport error
carrying that status, and when a fresh credential was cached as the call
began the whole client state — cached token and issuance timestamp — is left
unchanged by the failure. -/
theorem transport_error_preserves_state (auth : JWTAuth) (st : ClientState)
    (now : ℚ) (method rid : String) (params : Option Json)
    (resp : HTTPResponse) (t : JWTPayload)
    (hopen : st.closed = false)
    (hcached : st.currentToken = some t)
    (hfresh : now - st.tokenGeneratedAt ≤ tokenTTL)
    (hstatus : is2xx resp.status = false) :
    request auth st now method rid params resp
      = (.error (.transportError resp.status), st) := by
  simp [request, hopen, hstatus, getFreshToken, hcached, not_lt.mpr hfresh]

/-- Witness for `transport_error_preserves_state`: a 500 response with a
100-second-old cached credential fails and leaves the state identical. -/
theorem transport_error_preserves_state_witness :
    request sampleAuth
        ⟨some (tokenPayload sampleAuth none defaultExpiresIn 0), 0, 1, false⟩
        100 "tools/list" "req-1" none ⟨500, []⟩
      = (.error (.transportError 500),
         ⟨some (tokenPayload sampleAuth none defaultExpiresIn 0), 0, 1,
          false⟩) :=
  transport_error_preserves_state sampleAuth
    ⟨some (tokenPayload sampleAuth none defaultExpiresIn 0), 0, 1, false⟩
    100 "tools/list" "req-1" none ⟨500, []⟩
    (tokenPayload sampleAuth none defaultExpiresIn 0)
    rfl rfl (by norm_num [tokenTTL]) rfl

/-- C9: after `close()` every `request` and every `stream` call fails with
the closed-client error, and closing marks the underlying connection
released (the `closed` flag of the httpx client model). -/
theorem closed_client_rejects (auth : JWTAuth) (st : ClientState) (now : ℚ)
    (method rid : String) (params : Option Json) (resp : HTTPResponse)
    (parse : String → Option Json) (frames : List String) :
    (request auth (close st) now method rid params resp).1
      = .error .clientClosed ∧
    (stream auth (close st) now method params parse frames).1
      = .error .clientClosed ∧
    (close st).closed = true := by
  refine ⟨?_, ?_, rfl⟩
  · simp [request, close]
  · simp [stream, close]

/-- C10: the error branch of `request` is taken on presence of the `error`
key alone — every mapping body carrying the key fails, whatever the value
under it: a `null` descriptor fails (as the `AttributeError` that
`error.get` raises on it), an empty-object descriptor fails as the
`RemoteError`; no shape validation happens before failing. -/
theorem error_key_presence_fails (body : List (String × Json)) (v : Json)
    (h : List.lookup "error" body = some v) :
    (∃ e, jsonRPCCheck body = .error e) ∧
    jsonRPCCheck [("error", Json.null)] = .error .attributeError ∧
    jsonRPCCheck [("error", Json.obj [])]
      = .error (.remoteError (Json.obj [])) := by
  refine ⟨?_, rfl, rfl⟩
  rcases v with _ | b | n | s | xs | kvs
  · exact ⟨.attributeError, by simp [jsonRPCCheck, h]⟩
  · exact ⟨.attributeError, by simp [jsonRPCCheck, h]⟩
  · exact ⟨.attributeError, by simp [jsonRPCCheck, h]⟩
  · exact ⟨.attributeError, by simp [jsonRPCCheck, h]⟩
  · exact ⟨.attributeError, by simp [jsonRPCCheck, h]⟩
  · exact ⟨.remoteError (.obj kvs), by simp [jsonRPCCheck, h]⟩

/-- Witness for `error_key_presence_fails` at a string-valued descriptor. -/
theorem error_key_presence_fails_witness :
    (∃ e, jsonRPCCheck [("error", Json.str "boom")] = .error e) ∧
    jsonRPCCheck [("error", Json.null)] = .error .attributeError :=
  ⟨(error_key_presence_fails [("error", Json.str "boom")]
      (Json.str "boom") rfl).1,
   (error_key_presence_fails [("error", Json.str "boom")]
      (Json.str "boom") rfl).2.1⟩

end MCP
